import Mathlib

/-!
Verification of the multi-tenant TikTok live connection pool
(services/TikTokService.js) and its event-broadcast isolation layer.

The JavaScript service is shallowly embedded below:
  - the two Maps of the service (connections, roomClients) become
    association lists over String keys;
  - the async connect method is split at its single await point
    (await connection.connect()) into two atomic segments,
    connectSeg1 and connectSeg2, so that interleavings of concurrent
    calls can be stated explicitly;
  - JavaScript falsy-coalescing (the || operator on numbers) is
    modelled by jsOrNat over Option Nat;
  - io.to(room).emit(name, ...) becomes an Emission record, and the
    downstream socket layer a list of Subscriber records each carrying
    the set of rooms it joined.
-/

set_option autoImplicit false

namespace TikTokService

/-! ## Association-list primitives (the two JavaScript Maps) -/

/-- First value stored under key k, like Map.prototype.get. -/
def alookup {α : Type} {β : Type} [DecidableEq α] (k : α) : List (α × β) → Option β
  | [] => none
  | (k', v) :: rest => if k' = k then some v else alookup k rest

/-- Remove every pair stored under key k, like Map.prototype.delete. -/
def adel {α : Type} {β : Type} [DecidableEq α] (k : α) : List (α × β) → List (α × β)
  | [] => []
  | p :: rest => if p.1 = k then adel k rest else p :: adel k rest

/-- Store v under key k, like Map.prototype.set (extensionally). -/
def aset {α : Type} {β : Type} [DecidableEq α] (k : α) (v : β) (l : List (α × β)) :
    List (α × β) :=
  (k, v) :: adel k l

theorem alookup_adel_self {α β : Type} [DecidableEq α] (k : α) (l : List (α × β)) :
    alookup k (adel k l) = none := by
  induction l with
  | nil => rfl
  | cons p rest ih =>
      by_cases h : p.1 = k
      · simpa [adel, h] using ih
      · simpa [adel, alookup, h] using ih

theorem alookup_adel_ne {α β : Type} [DecidableEq α] {k k' : α} (h : k ≠ k')
    (l : List (α × β)) : alookup k' (adel k l) = alookup k' l := by
  induction l with
  | nil => rfl
  | cons p rest ih =>
      by_cases hp : p.1 = k
      · have hp' : p.1 ≠ k' := by simpa [hp] using h
        simp [adel, alookup, hp, hp', h, ih]
      · by_cases hq : p.1 = k'
        · simp [adel, alookup, hp, hq, Ne.symm h, ih]
        · simp [adel, alookup, hp, hq, ih]

theorem alookup_aset_self {α β : Type} [DecidableEq α] (k : α) (v : β) (l : List (α × β)) :
    alookup k (aset k v l) = some v := by
  simp [aset, alookup]

theorem alookup_aset_ne {α β : Type} [DecidableEq α] {k k' : α} (h : k ≠ k') (v : β)
    (l : List (α × β)) : alookup k' (aset k v l) = alookup k' l := by
  simp [aset, alookup, h, alookup_adel_ne h]

theorem adel_of_alookup_none {α β : Type} [DecidableEq α] {k : α} {l : List (α × β)}
    (h : alookup k l = none) : adel k l = l := by
  induction l with
  | nil => rfl
  | cons p rest ih =>
      by_cases hp : p.1 = k
      · simp [alookup, hp] at h
      · simp [alookup, hp] at h
        simp [adel, hp]
        simpa [adel] using ih h

theorem alookup_eq_none_iff {α β : Type} [DecidableEq α] {k : α} {l : List (α × β)} :
    alookup k l = none ↔ ∀ p ∈ l, p.1 ≠ k := by
  induction l with
  | nil => simp [alookup]
  | cons p rest ih =>
      by_cases hp : p.1 = k
      · simp [alookup, hp]
      · simp [alookup, hp, ih]

/-! ## Data model

One entry of the connections Map: the stored object
`{ connection, lastActivity }`.  The opaque WebcastPushConnection
handle is identified by a numeric id into a side table of handle
states, so that establishment and teardown of the upstream
connection are observable in the model. -/

/-- Lifecycle of one upstream WebcastPushConnection handle. -/
inductive HState : Type where
  /-- connect() has been invoked and its promise is still pending -/
  | connecting : HState
  /-- connect() resolved: the upstream connection is established -/
  | established : HState
  /-- the upstream connection has been torn down (or the handshake failed) -/
  | closed : HState
deriving DecidableEq, Repr

/-- One value of the connections Map: { connection, lastActivity }. -/
structure Entry : Type where
  handleId : Nat
  lastActivity : Nat
deriving DecidableEq, Repr

/-- The whole mutable state of the TikTokService singleton, plus the
bookkeeping needed to observe upstream behaviour: the handle-state
table, a counter of upstream handshakes started, and a fresh-id
counter for new WebcastPushConnection objects. -/
structure ServiceState : Type where
  connections : List (String × Entry)
  roomClients : List (String × Int)
  handles : List (Nat × HState)
  handshakes : Nat
  nextHandle : Nat
deriving DecidableEq, Repr

/-- The state right after the constructor runs: both Maps empty. -/
def initialState : ServiceState :=
  { connections := [], roomClients := [], handles := [], handshakes := 0, nextHandle := 0 }

/-! ## Gift normalization (the gift event handler, lines 180-189)

JavaScript: `const giftValue = data.diamondCount || data.giftValue || 1;`
The || operator falls through on every falsy value, so a field that is
absent (none) or holds 0 is skipped. -/

/-- JavaScript a || b for an optional numeric field a: a wins exactly
when it is present and non-zero (truthy). -/
def jsOrNat (a : Option Nat) (b : Nat) : Nat :=
  match a with
  | some v => if v = 0 then b else v
  | none => b

/-- Resolution of the numeric gift value from the raw payload, as the
code computes it: `data.diamondCount || data.giftValue || 1`. -/
def resolveGiftValue (diamondCount giftValue : Option Nat) : Nat :=
  jsOrNat diamondCount (jsOrNat giftValue 1)

/-- Gift classification: small below 10, medium from 10 below 100,
large from 100, exactly as the if/else chain in the handler. -/
def giftType (v : Nat) : String :=
  if v ≥ 100 then "large" else if v ≥ 10 then "medium" else "small"

/-- Resolution rule as the claim words it (for comparison with
resolveGiftValue, which is the code): the first non-null field wins,
and an unknown (null) or zero resolved value defaults to 1. -/
def resolveGiftValueClaim (diamondCount giftValue : Option Nat) : Nat :=
  match (match diamondCount with | some v => some v | none => giftValue) with
  | some 0 => 1
  | some v => v
  | none => 1

/-! ## The connect method, split at its await point

connect(username, io) runs synchronously from its entry up to
`await connection.connect()`: it checks the Map, and on a miss it
creates a WebcastPushConnection, stores the entry in the Map,
installs the event handlers, and starts the upstream handshake.
That whole synchronous region is connectSeg1.  The continuation
after the await (return true, or the catch block) is connectSeg2. -/

/-- First atomic segment of connect(username, io).  Result:
some true means connect returned synchronously (reuse branch,
lines 51-59); none means the call is now suspended awaiting the
handshake of the freshly created handle (which has id s.nextHandle).
The handshake counter records that connection.connect() was invoked. -/
def connectSeg1 (username : String) (now : Nat) (s : ServiceState) :
    Option Bool × ServiceState :=
  match alookup username s.connections with
  | some e =>
      (some true,
        { s with
          connections := aset username ⟨e.handleId, now⟩ s.connections })
  | none =>
      (none,
        { s with
          connections := aset username ⟨s.nextHandle, now⟩ s.connections,
          handles := aset s.nextHandle HState.connecting s.handles,
          handshakes := s.handshakes + 1,
          nextHandle := s.nextHandle + 1 })

/-- Second atomic segment of connect: the continuation after
`await connection.connect()` resolves (ok = true: line 246 returns
true) or rejects (ok = false: the catch block at lines 247-254
deletes the Map entry and returns false).  The third component lists
the rooms/events emitted by this segment itself: the code emits
nothing on either path.  On success the handle becomes established;
on failure the handshake never produced a connection. -/
def connectSeg2 (username : String) (h : Nat) (ok : Bool) (s : ServiceState) :
    Bool × ServiceState × List (String × String) :=
  if ok then
    (true, { s with handles := aset h HState.established s.handles }, [])
  else
    (false,
      { s with
        connections := adel username s.connections,
        handles := aset h HState.closed s.handles }, [])

/-- Effect of WebcastPushConnection.disconnect() on the handle state:
it tears down an established connection.  A handle whose connect
promise is still pending is not cancelled by it (in the scenarios
considered here the pending handshake goes on to resolve), and a
closed handle stays closed. -/
def closeHandle (st : HState) : HState :=
  match st with
  | HState.established => HState.closed
  | st => st

/-- disconnect(username), lines 261-272.  teardownFails models
connection.disconnect() throwing; the try/catch swallows the error
(leaving the handle as it was), and the Map entry is deleted
unconditionally afterwards.  The method never throws outward, which
the embedding reflects by being a total function into ServiceState. -/
def disconnectOp (teardownFails : Bool) (username : String) (s : ServiceState) :
    ServiceState :=
  match alookup username s.connections with
  | none => s
  | some e =>
      let hs :=
        if teardownFails then s.handles
        else
          match alookup e.handleId s.handles with
          | some st => aset e.handleId (closeHandle st) s.handles
          | none => s.handles
      { s with connections := adel username s.connections, handles := hs }

/-! ## Subscriber counting (roomClients Map) -/

/-- getClientCount(username), lines 311-313. -/
def getClientCount (username : String) (s : ServiceState) : Int :=
  (alookup username s.roomClients).getD 0

/-- addClientToRoom(username), lines 288-292. -/
def addClientToRoom (username : String) (s : ServiceState) : ServiceState :=
  let count := getClientCount username s
  { s with roomClients := aset username (count + 1) s.roomClients }

/-- removeClientFromRoom(username), lines 298-304: decrements only
when the current count is positive. -/
def removeClientFromRoom (username : String) (s : ServiceState) : ServiceState :=
  let count := getClientCount username s
  if count > 0 then
    { s with roomClients := aset username (count - 1) s.roomClients }
  else s

/-- One downstream registry operation. -/
inductive RegOp : Type where
  | inc : String → RegOp
  | dec : String → RegOp
deriving DecidableEq, Repr

/-- Apply one registry operation. -/
def applyRegOp (s : ServiceState) : RegOp → ServiceState
  | RegOp.inc u => addClientToRoom u s
  | RegOp.dec u => removeClientFromRoom u s

/-- Apply a sequence of registry operations, oldest first. -/
def applyRegOps (ops : List RegOp) (s : ServiceState) : ServiceState :=
  ops.foldl applyRegOp s

/-! ## Janitor (checkInactiveConnections, lines 320-337) -/

/-- The 5-minute idle threshold (TIMEOUT constant, line 321). -/
def idleTimeout : Nat := 5 * 60 * 1000

/-- The fixed janitor period (setInterval argument, line 38). -/
def cleanupIntervalMs : Nat := 60000

/-- The eviction guard of one janitor iteration (line 328):
clientCount === 0 and now - lastActivity > TIMEOUT.  Both reads are
against the pre-tick state: roomClients is untouched by disconnect,
and the entry data was captured by the iterator. -/
def shouldEvict (now : Nat) (s : ServiceState) (p : String × Entry) : Bool :=
  decide (getClientCount p.1 s = 0) && decide (idleTimeout < now - p.2.lastActivity)

/-- One janitor tick: iterate over the entries and call
this.disconnect(username) on each entry satisfying the guard. -/
def checkInactiveConnections (now : Nat) (s : ServiceState) : ServiceState :=
  (s.connections.filter (shouldEvict now s)).foldl
    (fun acc p => disconnectOp false p.1 acc) s

/-! ## Broadcast layer (Socket.io rooms)

io.to(room).emit(name, payload) is modelled as an Emission whose
delivered set is the subscribers that joined that room. -/

/-- One io.to(room).emit(name, ...) call: the room it targets and the
event name. -/
structure Emission : Type where
  room : String
  event : String
deriving DecidableEq, Repr

/-- One downstream Socket.io client and the set of rooms it joined. -/
structure Subscriber : Type where
  sid : Nat
  rooms : List String
deriving DecidableEq, Repr

/-- The set of subscribers that receive an emission: exactly the
members of the targeted room. -/
def deliveredSet (e : Emission) (subs : List Subscriber) : List Subscriber :=
  subs.filter (fun sub => decide (e.room ∈ sub.rooms))

/-- Emissions of the chat handler (lines 88-120) for the connection
of the given username: the generic tiktok_chat event, plus the
derived command events when the lower-cased trimmed comment matches
an alias.  Every io.to call in the handler targets username. -/
def chatEmissions (username : String) (comment : Option String) : List Emission :=
  let message := match comment with
    | some c => c.toLower.trim
    | none => ""
  [⟨username, "tiktok_chat"⟩]
    ++ (if message = "join" ∨ message = "thamgia" then
          [⟨username, "player_join"⟩] else [])
    ++ (if message = "hit" ∨ message = "danh" ∨ message = "attack" then
          [⟨username, "player_attack"⟩] else [])

/-- Emissions of the like handler (lines 125-144). -/
def likeEmissions (username : String) : List Emission :=
  [⟨username, "tiktok_like"⟩]

/-- Emissions of the social handler (lines 149-166): only the viewer
share display type produces an event. -/
def socialEmissions (username : String) (displayType : String) : List Emission :=
  if displayType = "pm_mt_msg_viewer_share" then [⟨username, "tiktok_share"⟩] else []

/-- Emissions of the gift handler (lines 171-215): the generic
tiktok_gift event and the legacy gift_received event. -/
def giftEmissions (username : String) : List Emission :=
  [⟨username, "tiktok_gift"⟩, ⟨username, "gift_received"⟩]

/-- Emission of the connected status handler (lines 220-226). -/
def connectedEmissions (username : String) : List Emission :=
  [⟨username, "tiktok_connected"⟩]

/-- Emission of the disconnected status handler (lines 228-234); the
handler also deletes the Map entry, which is irrelevant to routing. -/
def disconnectedEmissions (username : String) : List Emission :=
  [⟨username, "tiktok_disconnected"⟩]

/-- Emission of the error status handler (lines 236-242). -/
def errorEmissions (username : String) : List Emission :=
  [⟨username, "tiktok_error"⟩]

/-- All emissions any upstream handler installed for username can
produce — the four domain-event handlers (chat, like, social, gift)
and the three connection-status handlers (connected, disconnected,
error) — over all raw payload shapes relevant to routing. -/
def handlerEmissions (username : String) (comment : Option String)
    (displayType : String) : List Emission :=
  chatEmissions username comment ++ likeEmissions username
    ++ socialEmissions username displayType ++ giftEmissions username
    ++ connectedEmissions username ++ disconnectedEmissions username
    ++ errorEmissions username

/-! ## Helper lemmas -/

theorem mem_ite_list {α : Type} {P : Prop} [Decidable P] {l : List α} {e : α}
    (h : e ∈ if P then l else []) : e ∈ l := by
  split at h
  · exact h
  · simp at h

/-- Every emission of the chat handler targets the room of its own
username. -/
theorem chatEmissions_room (username : String) (comment : Option String) :
    ∀ e ∈ chatEmissions username comment, e.room = username := by
  intro e he
  simp only [chatEmissions, List.mem_append] at he
  rcases he with (h1 | h2) | h3
  · simp at h1; simp [h1]
  · have h2' := mem_ite_list h2
    simp at h2'; simp [h2']
  · have h3' := mem_ite_list h3
    simp at h3'; simp [h3']

/-- Every emission any handler of a connection produces targets the
room of the username that connection was created for. -/
theorem handlerEmissions_room (username : String) (comment : Option String)
    (displayType : String) :
    ∀ e ∈ handlerEmissions username comment displayType, e.room = username := by
  intro e he
  simp only [handlerEmissions, List.mem_append] at he
  rcases he with (((((hc | hl) | hs) | hg) | hcon) | hdis) | herr
  · exact chatEmissions_room username comment e hc
  · simp [likeEmissions] at hl; simp [hl]
  · simp [socialEmissions] at hs
    simp [hs.2]
  · simp [giftEmissions] at hg
    rcases hg with h1 | h2
    · simp [h1]
    · simp [h2]
  · simp [connectedEmissions] at hcon; simp [hcon]
  · simp [disconnectedEmissions] at hdis; simp [hdis]
  · simp [errorEmissions] at herr; simp [herr]

/-- A disconnect for a username with no Map entry is a no-op on the
whole state. -/
theorem disconnectOp_of_none {f : Bool} {t : String} {s : ServiceState}
    (h : alookup t s.connections = none) : disconnectOp f t s = s := by
  simp [disconnectOp, h]

/-! ## Claim theorems -/

/-- C1: for distinct tenants A and B, every event emitted by the
handlers installed on the connection created for A targets the room
named A, so its delivered set never contains a subscriber that only
joined the room of B: no delivery path carries an event of A to a
subscriber of B. -/
theorem C1_broadcast_isolation (A B : String) (comment : Option String)
    (displayType : String) (subs : List Subscriber) (sub : Subscriber)
    (e : Emission) (hAB : A ≠ B)
    (he : e ∈ handlerEmissions A comment displayType)
    (hrooms : sub.rooms = [B]) :
    sub ∉ deliveredSet e subs := by
  intro hmem
  have hroom : e.room = A := handlerEmissions_room A comment displayType e he
  have hin : e.room ∈ sub.rooms := by
    have := (List.mem_filter.1 hmem).2
    exact of_decide_eq_true this
  rw [hrooms, hroom] at hin
  exact hAB (by simpa using hin)

/-- Witness for C1 at concrete inputs. -/
theorem C1_broadcast_isolation_witness :
    (⟨1, ["bob"]⟩ : Subscriber) ∉
      deliveredSet ⟨"alice", "tiktok_chat"⟩ [⟨1, ["bob"]⟩] :=
  C1_broadcast_isolation "alice" "bob" none "" [⟨1, ["bob"]⟩] ⟨1, ["bob"]⟩
    ⟨"alice", "tiktok_chat"⟩ (by decide) (by decide) rfl

/-- C5: when the upstream handshake of a connect rejects, the
continuation (the catch block) returns false, removes the entry for
the tenant entirely from the pool, emits no event, and leaves the
subscriber counts untouched. -/
theorem C5_handshake_failure (s : ServiceState) (t : String) (h : Nat) :
    (connectSeg2 t h false s).1 = false ∧
    alookup t (connectSeg2 t h false s).2.1.connections = none ∧
    (connectSeg2 t h false s).2.2 = [] ∧
    (connectSeg2 t h false s).2.1.roomClients = s.roomClients := by
  refine ⟨rfl, ?_, rfl, rfl⟩
  simp [connectSeg2, alookup_adel_self]

/-- C6: disconnect is total (a function into ServiceState, never
throwing), is a no-op when no entry exists, removes the entry
unconditionally whether or not the upstream teardown errors, leaves
the subscriber counts untouched, and is idempotent. -/
theorem C6_disconnect_idempotent (f f2 : Bool) (t : String) (s : ServiceState) :
    (alookup t s.connections = none → disconnectOp f t s = s) ∧
    alookup t (disconnectOp f t s).connections = none ∧
    (disconnectOp f t s).roomClients = s.roomClients ∧
    (disconnectOp f t s).connections = (disconnectOp f2 t s).connections ∧
    disconnectOp f2 t (disconnectOp f t s) = disconnectOp f t s := by
  cases halook : alookup t s.connections with
  | none =>
      refine ⟨fun _ => disconnectOp_of_none halook, ?_, ?_, ?_, ?_⟩
      · rw [disconnectOp_of_none halook]; exact halook
      · rw [disconnectOp_of_none halook]
      · rw [disconnectOp_of_none (f := f) halook, disconnectOp_of_none (f := f2) halook]
      · rw [disconnectOp_of_none (f := f) halook, disconnectOp_of_none (f := f2) halook]
  | some e =>
      have h1 : alookup t (disconnectOp f t s).connections = none := by
        simp [disconnectOp, halook, alookup_adel_self]
      refine ⟨?_, h1, ?_, ?_, disconnectOp_of_none h1⟩
      · intro hc
        cases hc
      · simp [disconnectOp, halook]
      · simp [disconnectOp, halook]

/-- Witness for C6 at concrete inputs. -/
theorem C6_disconnect_idempotent_witness :
    alookup "alice"
      (disconnectOp true "alice"
        { initialState with
          connections := [("alice", ⟨0, 0⟩)],
          handles := [(0, HState.established)] }).connections = none :=
  (C6_disconnect_idempotent true false "alice"
    { initialState with
      connections := [("alice", ⟨0, 0⟩)],
      handles := [(0, HState.established)] }).2.1

/-- C7 as stated is false on the code: resolution is JavaScript
falsy-coalescing, so a present diamondCount of 0 does not win; with
diamondCount 0 and giftValue 50 the code resolves 50 (a medium
gift), while the stated rule (first non-null wins, zero defaults
to 1) yields 1 (a small gift). -/
theorem C7_gift_resolution_counterexample :
    resolveGiftValue (some 0) (some 50) = 50 ∧
    resolveGiftValueClaim (some 0) (some 50) = 1 ∧
    giftType (resolveGiftValue (some 0) (some 50)) = "medium" ∧
    giftType (resolveGiftValueClaim (some 0) (some 50)) = "small" := by decide

/-- C7 amended: the numeric gift value is resolved by falsy
coalescing: the first field that is present and non-zero wins, and
if every field is absent or zero the value defaults to 1; the gift
type is a pure function of the resolved value with small below 10,
medium from 10 below 100, large from 100. -/
theorem C7_gift_resolution_and_classification :
    (∀ (v : Nat) (g : Option Nat), 0 < v → resolveGiftValue (some v) g = v) ∧
    (∀ (d : Option Nat) (w : Nat), (d = none ∨ d = some 0) → 0 < w →
      resolveGiftValue d (some w) = w) ∧
    (∀ d g : Option Nat, (d = none ∨ d = some 0) → (g = none ∨ g = some 0) →
      resolveGiftValue d g = 1) ∧
    (∀ v : Nat, giftType v = "small" ↔ v < 10) ∧
    (∀ v : Nat, giftType v = "medium" ↔ 10 ≤ v ∧ v < 100) ∧
    (∀ v : Nat, giftType v = "large" ↔ 100 ≤ v) ∧
    giftType 9 = "small" ∧ giftType 10 = "medium" ∧
    giftType 99 = "medium" ∧ giftType 100 = "large" := by
  refine ⟨?_, ?_, ?_, ?_, ?_, ?_, by decide, by decide, by decide, by decide⟩
  · intro v g hv
    simp [resolveGiftValue, jsOrNat, Nat.pos_iff_ne_zero.1 hv]
  · intro d w hd hw
    rcases hd with rfl | rfl <;>
      simp [resolveGiftValue, jsOrNat, Nat.pos_iff_ne_zero.1 hw]
  · intro d g hd hg
    rcases hd with rfl | rfl <;> rcases hg with rfl | rfl <;>
      simp [resolveGiftValue, jsOrNat]
  · intro v
    simp only [giftType]
    split_ifs with h1 h2
    · exact iff_of_false (by decide) (by omega)
    · exact iff_of_false (by decide) (by omega)
    · exact iff_of_true rfl (by omega)
  · intro v
    simp only [giftType]
    split_ifs with h1 h2
    · exact iff_of_false (by decide) (by omega)
    · exact iff_of_true rfl (by omega)
    · exact iff_of_false (by decide) (by omega)
  · intro v
    simp only [giftType]
    split_ifs with h1 h2
    · exact iff_of_true rfl (by omega)
    · exact iff_of_false (by decide) (by omega)
    · exact iff_of_false (by decide) (by omega)

/-- Witness for the amended C7 at concrete inputs. -/
theorem C7_gift_resolution_witness :
    resolveGiftValue (some 9) none = 9 ∧
    resolveGiftValue (some 0) (some 50) = 50 ∧
    resolveGiftValue none none = 1 :=
  ⟨C7_gift_resolution_and_classification.1 9 none (by decide),
   C7_gift_resolution_and_classification.2.1 (some 0) 50 (Or.inr rfl) (by decide),
   C7_gift_resolution_and_classification.2.2.1 none none (Or.inl rfl) (Or.inl rfl)⟩

/-- C4: a connect for a tenant with an entry already in the pool
returns true synchronously, starts no additional upstream handshake,
creates no new handle object, keeps the same handle id, and
refreshes lastActivity; and after a first successful connect for an
unseen tenant, a second sequential connect returns true with the
total handshake count still one above the original. -/
theorem C4_sequential_reuse :
    (∀ (s : ServiceState) (t : String) (n : Nat) (e : Entry),
      alookup t s.connections = some e →
      (connectSeg1 t n s).1 = some true ∧
      (connectSeg1 t n s).2.handshakes = s.handshakes ∧
      (connectSeg1 t n s).2.nextHandle = s.nextHandle ∧
      alookup t (connectSeg1 t n s).2.connections = some ⟨e.handleId, n⟩) ∧
    (∀ (s : ServiceState) (t : String) (n1 n2 : Nat),
      alookup t s.connections = none →
      (connectSeg1 t n2
        (connectSeg2 t s.nextHandle true (connectSeg1 t n1 s).2).2.1).1 = some true ∧
      (connectSeg1 t n2
        (connectSeg2 t s.nextHandle true (connectSeg1 t n1 s).2).2.1).2.handshakes
        = s.handshakes + 1 ∧
      alookup t (connectSeg1 t n2
        (connectSeg2 t s.nextHandle true (connectSeg1 t n1 s).2).2.1).2.connections
        = some ⟨s.nextHandle, n2⟩) := by
  constructor
  · intro s t n e h
    refine ⟨?_, ?_, ?_, ?_⟩ <;> simp [connectSeg1, h, alookup_aset_self]
  · intro s t n1 n2 h
    refine ⟨?_, ?_, ?_⟩ <;>
      simp [connectSeg1, connectSeg2, h, alookup_aset_self]

/-- Witness for C4 at concrete inputs. -/
theorem C4_sequential_reuse_witness :
    (connectSeg1 "alice" 7
      { initialState with
        connections := [("alice", ⟨0, 3⟩)] }).1 = some true ∧
    (connectSeg1 "alice" 2
      (connectSeg2 "alice" 0 true (connectSeg1 "alice" 1 initialState).2).2.1).2.handshakes
      = 1 :=
  ⟨(C4_sequential_reuse.1 { initialState with connections := [("alice", ⟨0, 3⟩)] }
      "alice" 7 ⟨0, 3⟩ rfl).1,
   (C4_sequential_reuse.2 initialState "alice" 1 2 rfl).2.1⟩

/-- C2: for a tenant with no pool entry, the first segment of
connect registers the entry and starts exactly one upstream
handshake; a second connect call interleaved before that handshake
resolves observes the entry, returns true synchronously, starts no
second handshake and creates no second handle, while the single
handle is still in its connecting state. -/
theorem C2_race_safe_connect (s : ServiceState) (t : String) (n1 n2 : Nat)
    (h : alookup t s.connections = none) :
    (connectSeg1 t n1 s).1 = none ∧
    (connectSeg1 t n1 s).2.handshakes = s.handshakes + 1 ∧
    (connectSeg1 t n2 (connectSeg1 t n1 s).2).1 = some true ∧
    (connectSeg1 t n2 (connectSeg1 t n1 s).2).2.handshakes = s.handshakes + 1 ∧
    (connectSeg1 t n2 (connectSeg1 t n1 s).2).2.nextHandle
      = (connectSeg1 t n1 s).2.nextHandle ∧
    alookup s.nextHandle (connectSeg1 t n2 (connectSeg1 t n1 s).2).2.handles
      = some HState.connecting := by
  refine ⟨?_, ?_, ?_, ?_, ?_, ?_⟩ <;>
    simp [connectSeg1, h, alookup_aset_self]

/-- Witness for C2 at concrete inputs. -/
theorem C2_race_safe_connect_witness :
    (connectSeg1 "alice" 1 (connectSeg1 "alice" 0 initialState).2).1 = some true ∧
    (connectSeg1 "alice" 1 (connectSeg1 "alice" 0 initialState).2).2.handshakes
      = initialState.handshakes + 1 :=
  ⟨(C2_race_safe_connect initialState "alice" 0 1 rfl).2.2.1,
   (C2_race_safe_connect initialState "alice" 0 1 rfl).2.2.2.1⟩

/-- C10: while a first connect for an unseen tenant is still
awaiting its handshake (its handle is still connecting), a second
connect call returns true immediately from the presence of the pool
entry alone; if the pending handshake then rejects, the original
call returns false and the entry is removed, so the second caller
was told true for a connection that never came up. -/
theorem C10_reuse_ignores_pending_outcome (s : ServiceState) (t : String)
    (n1 n2 : Nat) (h : alookup t s.connections = none) :
    alookup s.nextHandle (connectSeg1 t n1 s).2.handles = some HState.connecting ∧
    (connectSeg1 t n2 (connectSeg1 t n1 s).2).1 = some true ∧
    (connectSeg2 t s.nextHandle false
      (connectSeg1 t n2 (connectSeg1 t n1 s).2).2).1 = false ∧
    alookup t (connectSeg2 t s.nextHandle false
      (connectSeg1 t n2 (connectSeg1 t n1 s).2).2).2.1.connections = none := by
  refine ⟨?_, ?_, ?_, ?_⟩ <;>
    simp [connectSeg1, connectSeg2, h, alookup_aset_self, alookup_adel_self]

/-- Witness for C10 at concrete inputs. -/
theorem C10_reuse_ignores_pending_outcome_witness :
    (connectSeg1 "alice" 1 (connectSeg1 "alice" 0 initialState).2).1 = some true ∧
    alookup "alice" (connectSeg2 "alice" 0 false
      (connectSeg1 "alice" 1 (connectSeg1 "alice" 0 initialState).2).2).2.1.connections
      = none :=
  ⟨(C10_reuse_ignores_pending_outcome initialState "alice" 0 1 rfl).2.1,
   (C10_reuse_ignores_pending_outcome initialState "alice" 0 1 rfl).2.2.2⟩

/-- C3 fails on the code: run connect for an unseen tenant up to its
await, call disconnect during the window, then let the handshake
resolve successfully.  The disconnect removed the pool entry (and
that removal survives, since the success path touches no Map), but
the success path performs no teardown check: connect returns true
and the just-established handle ends established, not closed — the
teardown request issued before establishment is the only one ever
made, so the disconnect intent on the upstream handle is lost. -/
theorem C3_disconnect_intent_lost :
    (connectSeg1 "alice" 0 initialState).1 = none ∧
    alookup "alice"
      (disconnectOp false "alice"
        (connectSeg1 "alice" 0 initialState).2).connections = none ∧
    (connectSeg2 "alice" 0 true
      (disconnectOp false "alice"
        (connectSeg1 "alice" 0 initialState).2)).1 = true ∧
    alookup "alice"
      (connectSeg2 "alice" 0 true
        (disconnectOp false "alice"
          (connectSeg1 "alice" 0 initialState).2)).2.1.connections = none ∧
    alookup 0
      (connectSeg2 "alice" 0 true
        (disconnectOp false "alice"
          (connectSeg1 "alice" 0 initialState).2)).2.1.handles
      = some HState.established ∧
    HState.established ≠ HState.closed := by decide

/-! ## Janitor lemmas for C8 -/

/-- Whatever branch disconnect takes, its effect on the connections
Map is deletion of the key. -/
theorem disconnectOp_connections (f : Bool) (u : String) (s : ServiceState) :
    (disconnectOp f u s).connections = adel u s.connections := by
  cases h : alookup u s.connections with
  | none => simp [disconnectOp, h, adel_of_alookup_none h]
  | some e => simp [disconnectOp, h]

/-- Disconnect never touches the roomClients Map. -/
theorem disconnectOp_roomClients (f : Bool) (u : String) (s : ServiceState) :
    (disconnectOp f u s).roomClients = s.roomClients := by
  cases h : alookup u s.connections with
  | none => simp [disconnectOp, h]
  | some e => simp [disconnectOp, h]

/-- Folding disconnect over a list of entries acts on the
connections Map as folding deletion of their keys. -/
theorem foldl_disconnect_connections (l : List (String × Entry)) (s : ServiceState) :
    (l.foldl (fun acc p => disconnectOp false p.1 acc) s).connections =
      l.foldl (fun c p => adel p.1 c) s.connections := by
  induction l generalizing s with
  | nil => rfl
  | cons p rest ih =>
      rw [List.foldl_cons, List.foldl_cons, ih, disconnectOp_connections]

/-- Folding disconnect over a list of entries never touches the
roomClients Map. -/
theorem foldl_disconnect_roomClients (l : List (String × Entry)) (s : ServiceState) :
    (l.foldl (fun acc p => disconnectOp false p.1 acc) s).roomClients =
      s.roomClients := by
  induction l generalizing s with
  | nil => rfl
  | cons p rest ih =>
      rw [List.foldl_cons, ih, disconnectOp_roomClients]

theorem adel_eq_filter {α β : Type} [DecidableEq α] (k : α) (l : List (α × β)) :
    adel k l = l.filter (fun p => decide (¬ (p.1 = k))) := by
  induction l with
  | nil => rfl
  | cons p rest ih =>
      by_cases h : p.1 = k <;> simp [adel, h, ih]

/-- Folding deletion of the keys of l over c keeps exactly the pairs
of c whose key occurs under no pair of l. -/
theorem foldl_adel_eq_filter (l : List (String × Entry)) (c : List (String × Entry)) :
    l.foldl (fun c p => adel p.1 c) c
      = c.filter (fun q => decide (∀ r ∈ l, ¬ (q.1 = r.1))) := by
  induction l generalizing c with
  | nil => simp
  | cons p rest ih =>
      rw [List.foldl_cons, ih, adel_eq_filter, List.filter_filter]
      apply List.filter_congr
      intro q _
      simp only [List.forall_mem_cons, Bool.decide_and, Bool.and_comm]

/-- In a list whose keys are pairwise distinct, two members with the
same key are the same pair. -/
theorem eq_of_mem_of_keys_nodup {α β : Type} [DecidableEq α]
    {l : List (α × β)} (hnd : (l.map Prod.fst).Nodup) {p q : α × β}
    (hp : p ∈ l) (hq : q ∈ l) (hk : p.1 = q.1) : p = q := by
  induction l with
  | nil => cases hp
  | cons a rest ih =>
      rw [List.map_cons, List.nodup_cons] at hnd
      rcases List.mem_cons.1 hp with rfl | hp' <;>
        rcases List.mem_cons.1 hq with rfl | hq'
      · rfl
      · exact absurd (hk ▸ List.mem_map_of_mem Prod.fst hq') hnd.1
      · exact absurd (hk ▸ List.mem_map_of_mem Prod.fst hp') hnd.1
      · exact ih hnd.2 hp' hq'

/-! ## Claim theorems for the janitor and the subscriber counter -/

/-- C8: one janitor tick, run against a pool whose tenants are
distinct, removes from the pool exactly the entries whose tenant has
zero subscribers and whose idle time strictly exceeds the 5-minute
threshold, leaving every other entry (in particular every tenant
with a positive subscriber count, however idle) untouched; the tick
period is the fixed 60-second constant. -/
theorem C8_janitor_eviction (now : Nat) (s : ServiceState)
    (hnd : (s.connections.map Prod.fst).Nodup) :
    idleTimeout = 5 * 60 * 1000 ∧ cleanupIntervalMs = 60000 ∧
    (checkInactiveConnections now s).connections
      = s.connections.filter (fun p => !(shouldEvict now s p)) ∧
    (checkInactiveConnections now s).roomClients = s.roomClients := by
  refine ⟨rfl, rfl, ?_, foldl_disconnect_roomClients _ s⟩
  rw [checkInactiveConnections, foldl_disconnect_connections, foldl_adel_eq_filter]
  apply List.filter_congr
  intro q hq
  by_cases hev : shouldEvict now s q = true
  · have hnall : ¬ (∀ r ∈ s.connections.filter (shouldEvict now s), ¬ (q.1 = r.1)) := by
      intro hall
      exact hall q (List.mem_filter.2 ⟨hq, hev⟩) rfl
    rw [hev, decide_eq_false hnall]
    rfl
  · have hall : ∀ r ∈ s.connections.filter (shouldEvict now s), ¬ (q.1 = r.1) := by
      intro r hr hkey
      have hrs := List.mem_filter.1 hr
      have hqr := eq_of_mem_of_keys_nodup hnd hq hrs.1 hkey
      rw [hqr] at hev
      exact hev hrs.2
    rw [Bool.not_eq_true] at hev
    rw [hev, decide_eq_true hall]
    rfl

/-- Witness for C8: a pool with an idle unsubscribed tenant and a
subscribed tenant equally idle; the tick evicts only the former. -/
theorem C8_janitor_eviction_witness :
    (checkInactiveConnections 600000
      { connections := [("alice", ⟨0, 0⟩), ("bob", ⟨1, 0⟩)],
        roomClients := [("bob", 1)],
        handles := [(0, HState.established), (1, HState.established)],
        handshakes := 2, nextHandle := 2 }).connections
      = [("alice", ⟨0, 0⟩), ("bob", ⟨1, 0⟩)].filter
          (fun p => !(shouldEvict 600000
            { connections := [("alice", ⟨0, 0⟩), ("bob", ⟨1, 0⟩)],
              roomClients := [("bob", 1)],
              handles := [(0, HState.established), (1, HState.established)],
              handshakes := 2, nextHandle := 2 } p)) :=
  (C8_janitor_eviction 600000
    { connections := [("alice", ⟨0, 0⟩), ("bob", ⟨1, 0⟩)],
      roomClients := [("bob", 1)],
      handles := [(0, HState.established), (1, HState.established)],
      handshakes := 2, nextHandle := 2 } (by decide)).2.2.1

/-! ## Counter lemmas for C9 -/

/-- Every room count is non-negative. -/
def RegNonneg (s : ServiceState) : Prop :=
  ∀ u : String, 0 ≤ getClientCount u s

theorem getClientCount_addClient_self (u : String) (s : ServiceState) :
    getClientCount u (addClientToRoom u s) = getClientCount u s + 1 := by
  simp [addClientToRoom, getClientCount, alookup_aset_self]

theorem getClientCount_addClient_ne {u v : String} (huv : u ≠ v)
    (s : ServiceState) :
    getClientCount v (addClientToRoom u s) = getClientCount v s := by
  simp [addClientToRoom, getClientCount, alookup_aset_ne huv]

theorem getClientCount_removeClient_self (u : String) (s : ServiceState) :
    getClientCount u (removeClientFromRoom u s)
      = if 0 < getClientCount u s then getClientCount u s - 1
        else getClientCount u s := by
  by_cases hpos : 0 < getClientCount u s
  · simp only [getClientCount] at hpos
    simp [removeClientFromRoom, getClientCount, hpos, alookup_aset_self]
  · simp only [getClientCount] at hpos
    simp [removeClientFromRoom, getClientCount, hpos]

theorem getClientCount_removeClient_ne {u v : String} (huv : u ≠ v)
    (s : ServiceState) :
    getClientCount v (removeClientFromRoom u s) = getClientCount v s := by
  by_cases hpos : 0 < getClientCount u s
  · simp only [getClientCount] at hpos
    simp [removeClientFromRoom, getClientCount, hpos, alookup_aset_ne huv]
  · simp only [getClientCount] at hpos
    simp [removeClientFromRoom, getClientCount, hpos]

theorem regNonneg_applyRegOp {s : ServiceState} (hs : RegNonneg s) (op : RegOp) :
    RegNonneg (applyRegOp s op) := by
  intro v
  cases op with
  | inc u =>
      by_cases huv : u = v
      · subst huv
        rw [applyRegOp, getClientCount_addClient_self]
        have := hs u
        omega
      · rw [applyRegOp, getClientCount_addClient_ne huv]
        exact hs v
  | dec u =>
      by_cases huv : u = v
      · subst huv
        rw [applyRegOp, getClientCount_removeClient_self]
        have := hs u
        split <;> omega
      · rw [applyRegOp, getClientCount_removeClient_ne huv]
        exact hs v

theorem regNonneg_applyRegOps (ops : List RegOp) {s : ServiceState}
    (hs : RegNonneg s) : RegNonneg (applyRegOps ops s) := by
  induction ops generalizing s with
  | nil => exact hs
  | cons op rest ih => exact ih (regNonneg_applyRegOp hs op)

/-- C9: starting from the empty registry, every sequence of
increment and decrement operations leaves every room count
non-negative, and a decrement on a room whose count is zero is a
no-op on the whole state. -/
theorem C9_counter_floor :
    (∀ (ops : List RegOp) (u : String),
      0 ≤ getClientCount u (applyRegOps ops initialState)) ∧
    (∀ (s : ServiceState) (u : String),
      getClientCount u s = 0 → removeClientFromRoom u s = s) := by
  constructor
  · intro ops u
    refine regNonneg_applyRegOps ops ?_ u
    intro v
    simp [getClientCount, initialState, alookup]
  · intro s u h
    simp [removeClientFromRoom, h]

/-- Witness for C9 at concrete inputs. -/
theorem C9_counter_floor_witness :
    removeClientFromRoom "alice" initialState = initialState ∧
    0 ≤ getClientCount "alice"
      (applyRegOps [RegOp.inc "alice", RegOp.dec "alice", RegOp.dec "alice"]
        initialState) :=
  ⟨C9_counter_floor.2 initialState "alice" (by decide),
   C9_counter_floor.1 [RegOp.inc "alice", RegOp.dec "alice", RegOp.dec "alice"]
     "alice"⟩

end TikTokService
